import Mathlib

set_option linter.unusedVariables false

/-!
Shallow embedding of `az-vm-zone-migration.py`, a script that migrates an
Azure VM to a different availability zone by snapshotting its disks,
deleting the source VM, recreating a VM in the target zone that reattaches
the original managed disks, and starting it.

The cloud provider is modelled as an environment `Env` that decides the
outcome of every provider call (VM lookup, SKU catalog enumeration, snapshot
submission, delete, create).  Each provider-facing action of the script is
recorded as an `Event`; the per-record body of `main`'s loop is embedded as
`processRow`, which returns the emitted event trace together with the
control-flow outcome (`continue` to the next record, `sys.exit(1)`, or an
uncaught Python exception).
-/

/-- A managed disk as read from the VM's storage profile:
`disk.name`, `disk.managed_disk.id`, `disk.managed_disk.storage_account_type`. -/
structure Disk where
  name : String
  managed_disk_id : String
  storage_account_type : String
deriving DecidableEq, Repr

/-- The observable state of a VM returned by `compute_client.virtual_machines.get`:
`vm.zones` (which in Python may be `None`), `vm.hardware_profile.vm_size`,
`vm.location`, `vm.storage_profile.os_disk`, `vm.storage_profile.data_disks`,
and the ids of `vm.network_profile.network_interfaces`. -/
structure VMInfo where
  zones : Option (List String)
  vm_size : String
  location : String
  os_disk : Disk
  data_disks : List Disk
  network_interface_ids : List String
deriving DecidableEq, Repr

/-- One row of the input CSV. -/
structure Row where
  source_rg : String
  source_vm : String
  source_os_type : String
  desired_rg : String
  desired_vm : String
  desired_zone : String
deriving DecidableEq, Repr

/-- An entry of the provider's resource-SKU catalog: a `name` and the
`locations` where the SKU is offered. -/
structure Sku where
  name : String
  locations : List String
deriving DecidableEq, Repr

/-- Outcome of `compute_client.virtual_machines.get`. -/
inductive GetVmResult where
  | ok (vm : VMInfo)
  | resourceNotFound
  | otherError
deriving DecidableEq, Repr

/-- Outcome of `compute_client.snapshots.begin_create_or_update`:
success, `azure.core.exceptions.ResourceNotFoundError`, or an exception of
any other class. -/
inductive SnapOutcome where
  | ok
  | resourceNotFound
  | otherError
deriving DecidableEq, Repr

/-- Outcome of `compute_client.virtual_machines.begin_create_or_update`:
success, a `ResourceExistsError` whose message contains `SkuNotAvailable`,
a `ResourceExistsError` without it, or an exception of any other class. -/
inductive CreateOutcome where
  | ok
  | resourceExistsSku
  | resourceExistsOther
  | otherError
deriving DecidableEq, Repr

/-- Outcome of `begin_delete` followed by `delete_operation.result()`. -/
inductive DeleteOutcome where
  | ok
  | error
deriving DecidableEq, Repr

/-- Outcome of `compute_client.virtual_machines.begin_start`: the submission
either succeeds or raises; neither `start_vm` nor `main` wraps the call in a
`try`, so a raised provider error propagates. -/
inductive StartOutcome where
  | ok
  | error
deriving DecidableEq, Repr

/-- The snapshot request body built by `create_snapshot`. -/
structure SnapshotReq where
  location : String
  create_option : String
  source_resource_id : String
  sku_name : String
deriving DecidableEq, Repr

/-- One data-disk entry of the create request:
`{'managed_disk': {'id': disk_id}, 'create_option': 'Attach'}`. -/
structure AttachDisk where
  id : String
  create_option : String
deriving DecidableEq, Repr

/-- The VM create request body built by `create_vm`. -/
structure CreateReq where
  location : String
  os_disk_id : String
  os_create_option : String
  os_type : String
  data_disks : List AttachDisk
  vm_size : String
  network_interface_id : String
  zones : List String
deriving DecidableEq, Repr

/-- Provider-facing actions and log lines emitted by the script, in order. -/
inductive Event where
  | logInfo
  | logWarning
  | logError
  | skuQuery (location vm_size : String)
  | snapshotCall (resource_group disk_name disk_id snapshot_name location : String)
  | snapshotSubmit (resource_group snapshot_name : String) (snap : SnapshotReq)
  | deleteBegin (resource_group vm_name : String)
  | deleteCompleted (resource_group vm_name : String)
  | createCall (resource_group vm_name : String) (req : CreateReq)
  | createSubmit (resource_group vm_name : String) (req : CreateReq)
  | startCall (resource_group vm_name : String)
deriving DecidableEq, Repr

/-- How processing of one record hands control back to the loop:
fall through / `continue` to the next row, `sys.exit(1)`, or an uncaught
Python exception that terminates the whole run. -/
inductive PyError where
  | typeError
  | azureError
deriving DecidableEq, Repr

inductive StepResult where
  | next
  | exitRun
  | uncaught (e : PyError)
deriving DecidableEq, Repr

/-- Result of the whole run. -/
inductive RunResult where
  | completed
  | exited
  | crashed (e : PyError)
deriving DecidableEq, Repr

/-- The cloud provider and configuration: outcomes of every provider call,
the wall clock (`datetime.now().strftime` at the n-th snapshot call of the
run), and the `--check` flag. -/
structure Env where
  getVm : String → String → GetVmResult
  skuCatalog : Except Unit (List Sku)
  snapOutcome : String → SnapOutcome
  deleteOutcome : String → String → DeleteOutcome
  createOutcome : String → String → CreateOutcome
  startOutcome : String → String → StartOutcome
  timestamp : Nat → String
  checkOnly : Bool

/-- ASCII lower-casing of one character, as Python's `str.lower` acts on
the ASCII range (the only characters the `'linux'` test can match). -/
def pyCharLower (c : Char) : Char :=
  if c.toNat ≥ 65 && c.toNat ≤ 90 then Char.ofNat (c.toNat + 32) else c

/-- The whitespace characters Python's `str.strip()` removes (ASCII range). -/
def pyIsSpace (c : Char) : Bool :=
  c == ' ' || c == '\t' || c == '\n' || c == '\r' || c == '\x0b' || c == '\x0c'

def dropSpaces : List Char → List Char
  | [] => []
  | c :: cs => if pyIsSpace c then dropSpaces cs else c :: cs

/-- Python `s.strip()` on the character list. -/
def pyStripChars (s : List Char) : List Char :=
  (dropSpaces (dropSpaces s).reverse).reverse

def charsStartWith : List Char → List Char → Bool
  | _, [] => true
  | [], _ :: _ => false
  | c :: cs, p :: ps => c == p && charsStartWith cs ps

/-- Python `pat in s` (substring containment). -/
def charsContain (s pat : List Char) : Bool :=
  match s with
  | [] => pat.isEmpty
  | _ :: rest => charsStartWith s pat || charsContain rest pat

/-- `'Linux' if 'linux' in source_os_type else 'Windows'`, where
`source_os_type` was read with `.strip().lower()`. -/
def pyOsType (source_os_type : String) : String :=
  if charsContain ((pyStripChars source_os_type.data).map pyCharLower) "linux".data
  then "Linux" else "Windows"

/-- `check_vm_exists`: returns the VM and logs its SKU, or logs a warning
(`ResourceNotFound`) / an error (anything else) and returns `None`. -/
def check_vm_exists (env : Env) (resource_group vm_name : String) :
    List Event × Option VMInfo :=
  match env.getVm resource_group vm_name with
  | GetVmResult.ok vm => ([Event.logInfo], some vm)
  | GetVmResult.resourceNotFound => ([Event.logWarning], none)
  | GetVmResult.otherError => ([Event.logError], none)

/-- `list_vm_disks`: one info line for the OS disk and one per data disk. -/
def list_vm_disks (vm : VMInfo) : List Event :=
  Event.logInfo :: vm.data_disks.map (fun _ => Event.logInfo)

/-- `create_snapshot`: generates `snapshot_name = "%s-%s" % (disk_name, now)`,
builds a `Snapshot` with `create_option 'Copy'`, the disk as source, and the
hardcoded sku `'Standard_ZRS'` (the `storage_type` argument is ignored), and
submits it.  A `ResourceNotFoundError` is caught and logged; any other
exception propagates (second component `true`). -/
def create_snapshot (env : Env) (resource_group disk_name disk_id location
    storage_type : String) (t : Nat) : List Event × Bool :=
  let snapshot_name := disk_name ++ "-" ++ env.timestamp t
  let snap : SnapshotReq :=
    { location := location
      create_option := "Copy"
      source_resource_id := disk_id
      sku_name := "Standard_ZRS" }
  match env.snapOutcome disk_id with
  | SnapOutcome.ok =>
      ([Event.snapshotCall resource_group disk_name disk_id snapshot_name location,
        Event.snapshotSubmit resource_group snapshot_name snap], false)
  | SnapOutcome.resourceNotFound =>
      ([Event.snapshotCall resource_group disk_name disk_id snapshot_name location,
        Event.logError], false)
  | SnapOutcome.otherError =>
      ([Event.snapshotCall resource_group disk_name disk_id snapshot_name location], true)

/-- The snapshot loop of `main` (lines 276-278): the OS disk first, then each
data disk, sequentially; an uncaught exception from `create_snapshot` stops
the loop (second result component `true`).  The counter threads the clock. -/
def snapshotAll (env : Env) (resource_group location : String) :
    Nat → List Disk → List Event × Nat × Bool
  | t, [] => ([], t, false)
  | t, d :: rest =>
    match create_snapshot env resource_group d.name d.managed_disk_id location
        d.storage_account_type t with
    | (evs, true) => (evs, t + 1, true)
    | (evs, false) =>
      match snapshotAll env resource_group location (t + 1) rest with
      | (evs2, t2, raised) => (evs ++ evs2, t2, raised)

/-- `delete_vm`: logs, calls `begin_delete`, then blocks on
`delete_operation.result()`.  A failure propagates (second component
`true`); on success the completion of the delete has been confirmed. -/
def delete_vm (env : Env) (resource_group vm_name : String)
    (zones : List String) : List Event × Bool :=
  match env.deleteOutcome resource_group vm_name with
  | DeleteOutcome.ok =>
      ([Event.logInfo, Event.deleteBegin resource_group vm_name,
        Event.deleteCompleted resource_group vm_name], false)
  | DeleteOutcome.error =>
      ([Event.logInfo, Event.deleteBegin resource_group vm_name], true)

/-- `create_vm`: builds the attach-only create request and submits it.
Only `ResourceExistsError` is caught (warned when the message mentions
`SkuNotAvailable`, logged as an error otherwise); an exception of any other
class propagates (second component `true`). -/
def create_vm (env : Env) (resource_group vm_name zone os_disk_id : String)
    (data_disks : List String) (network_interface_id vm_size location
    os_type : String) : List Event × Bool :=
  let req : CreateReq :=
    { location := location
      os_disk_id := os_disk_id
      os_create_option := "Attach"
      os_type := os_type
      data_disks := data_disks.map (fun disk_id =>
        { id := disk_id, create_option := "Attach" })
      vm_size := vm_size
      network_interface_id := network_interface_id
      zones := [zone] }
  match env.createOutcome resource_group vm_name with
  | CreateOutcome.ok =>
      ([Event.logInfo, Event.createCall resource_group vm_name req,
        Event.createSubmit resource_group vm_name req], false)
  | CreateOutcome.resourceExistsSku =>
      ([Event.logInfo, Event.createCall resource_group vm_name req,
        Event.logWarning], false)
  | CreateOutcome.resourceExistsOther =>
      ([Event.logInfo, Event.createCall resource_group vm_name req,
        Event.logError], false)
  | CreateOutcome.otherError =>
      ([Event.logInfo, Event.createCall resource_group vm_name req], true)

/-- `is_sku_available`: iterates the catalog, returning `True` on the first
entry whose `name` equals `vm_size` and whose `locations` contain `location`;
an exception from the enumeration is caught and `False` returned. -/
def is_sku_available (env : Env) (location vm_size : String) : Bool :=
  match env.skuCatalog with
  | Except.ok skus =>
      skus.any (fun sku => sku.name == vm_size && sku.locations.contains location)
  | Except.error _ => false

/-- `check_sku_availability`: wraps `is_sku_available` in one more
`try/except` returning `False` on an exception (which, in this model,
`is_sku_available` already never lets through). -/
def check_sku_availability (env : Env) (location vm_size : String) : Bool :=
  is_sku_available env location vm_size

/-- `start_vm`: logs and submits `begin_start`.  The submission is
fire-and-forget on success, but there is no `try` around it (neither here
nor at the call site in `main`), so an exception raised by `begin_start`
itself propagates (second component `true`). -/
def start_vm (env : Env) (resource_group vm_name : String) : List Event × Bool :=
  match env.startOutcome resource_group vm_name with
  | StartOutcome.ok =>
      ([Event.logInfo, Event.startCall resource_group vm_name], false)
  | StartOutcome.error =>
      ([Event.logInfo, Event.startCall resource_group vm_name], true)

/-- The body of `main`'s per-row loop (lines 247-291), as a function from the
environment, the running snapshot-clock counter and the row to the emitted
trace, the updated counter and the control-flow outcome.

Stages, in source order: `check_vm_exists`; log zones and `list_vm_disks`;
the zone gate `desired_zone in vm.zones` (a `TypeError` when `vm.zones` is
`None`); the `--check` gate; `check_sku_availability`; the `try` block that
snapshots every disk and collects `os_disk_id`, `data_disks` and the first
network interface (any exception there exits the run); `delete_vm`;
`create_vm`; `start_vm`; closing info lines. -/
def processRow (env : Env) (t : Nat) (row : Row) : List Event × Nat × StepResult :=
  let os_type := pyOsType row.source_os_type
  match check_vm_exists env row.source_rg row.source_vm with
  | (evs0, none) => (evs0, t, StepResult.next)
  | (evs0, some vm) =>
    let evs1 := evs0 ++ Event.logInfo :: list_vm_disks vm
    match vm.zones with
    | none => (evs1, t, StepResult.uncaught PyError.typeError)
    | some zones =>
      if zones.contains row.desired_zone then
        (evs1 ++ [Event.logWarning], t, StepResult.next)
      else if env.checkOnly then
        (evs1, t, StepResult.next)
      else if check_sku_availability env vm.location vm.vm_size = false then
        (evs1 ++ [Event.skuQuery vm.location vm.vm_size, Event.logWarning], t,
         StepResult.next)
      else
        match snapshotAll env row.source_rg vm.location t
            (vm.os_disk :: vm.data_disks) with
        | (snapEvs, t2, true) =>
          (evs1 ++ Event.skuQuery vm.location vm.vm_size ::
            (snapEvs ++ [Event.logError]), t2, StepResult.exitRun)
        | (snapEvs, t2, false) =>
          match vm.network_interface_ids with
          | [] =>
            (evs1 ++ Event.skuQuery vm.location vm.vm_size ::
              (snapEvs ++ [Event.logError]), t2, StepResult.exitRun)
          | nic :: _ =>
            match delete_vm env row.source_rg row.source_vm zones with
            | (delEvs, true) =>
              (evs1 ++ Event.skuQuery vm.location vm.vm_size ::
                (snapEvs ++ delEvs), t2, StepResult.uncaught PyError.azureError)
            | (delEvs, false) =>
              match create_vm env row.desired_rg row.desired_vm row.desired_zone
                  vm.os_disk.managed_disk_id
                  (vm.data_disks.map (fun disk => disk.managed_disk_id)) nic
                  vm.vm_size vm.location os_type with
              | (crEvs, true) =>
                (evs1 ++ Event.skuQuery vm.location vm.vm_size ::
                  (snapEvs ++ delEvs ++ crEvs), t2,
                 StepResult.uncaught PyError.azureError)
              | (crEvs, false) =>
                match start_vm env row.desired_rg row.desired_vm with
                | (stEvs, true) =>
                  (evs1 ++ Event.skuQuery vm.location vm.vm_size ::
                    (snapEvs ++ delEvs ++ crEvs ++ stEvs), t2,
                   StepResult.uncaught PyError.azureError)
                | (stEvs, false) =>
                  (evs1 ++ Event.skuQuery vm.location vm.vm_size ::
                    (snapEvs ++ delEvs ++ crEvs ++ stEvs ++
                      list_vm_disks vm ++ [Event.logInfo]), t2, StepResult.next)

/-- `main`'s loop over the CSV rows: each row is processed in order; a
`continue`/fall-through moves to the next row, `sys.exit(1)` or an uncaught
exception ends the run. -/
def mainLoop (env : Env) : Nat → List Row → List Event × RunResult
  | _, [] => ([], RunResult.completed)
  | t, row :: rest =>
    match processRow env t row with
    | (evs, t2, StepResult.next) =>
      match mainLoop env t2 rest with
      | (evs2, r) => (evs ++ evs2, r)
    | (evs, _, StepResult.exitRun) => (evs, RunResult.exited)
    | (evs, _, StepResult.uncaught e) => (evs, RunResult.crashed e)

namespace Script

/-- The whole run. -/
def main (env : Env) (rows : List Row) : List Event × RunResult :=
  mainLoop env 0 rows

end Script

/-- The four provider-mutating operations: snapshot submission attempts and
submissions, VM delete, VM create, VM start. -/
def Event.isMutating : Event → Bool
  | Event.snapshotCall _ _ _ _ _ => true
  | Event.snapshotSubmit _ _ _ => true
  | Event.deleteBegin _ _ => true
  | Event.deleteCompleted _ _ => true
  | Event.createCall _ _ _ => true
  | Event.createSubmit _ _ _ => true
  | Event.startCall _ _ => true
  | _ => false

def Event.isSnapshotSubmit : Event → Bool
  | Event.snapshotSubmit _ _ _ => true
  | _ => false

def Event.isStartCall : Event → Bool
  | Event.startCall _ _ => true
  | _ => false

def Event.isCreateCall : Event → Bool
  | Event.createCall _ _ _ => true
  | _ => false

/-- The snapshot name attempted by a `snapshotCall` event, if any. -/
def snapNameOf : Event → Option String
  | Event.snapshotCall _ _ _ snapshot_name _ => some snapshot_name
  | _ => none

/-- The generated names of all snapshot requests attempted in a trace. -/
def snapshotCallNames (evs : List Event) : List String :=
  evs.filterMap snapNameOf

/-- The source disk id of a successfully submitted snapshot request, if any. -/
def snapSubmitSourceOf : Event → Option String
  | Event.snapshotSubmit _ _ snap => some snap.source_resource_id
  | _ => none

/-- The source disk ids of all successfully submitted snapshot requests. -/
def snapshotSubmitSources (evs : List Event) : List String :=
  evs.filterMap snapSubmitSourceOf

def Event.isSnapshotCall : Event → Bool
  | Event.snapshotCall _ _ _ _ _ => true
  | _ => false

def isDeleteBeginEv : Event → Bool
  | Event.deleteBegin _ _ => true
  | _ => false

/-- Does an event record the confirmed completion of the delete of the given
VM? -/
def isDeleteCompletedFor (resource_group vm_name : String) : Event → Bool
  | Event.deleteCompleted rg n => rg == resource_group && n == vm_name
  | _ => false

/-- Does an event record a snapshot attempt (a `create_snapshot` invocation
that reached the provider call) for the given disk? -/
def isSnapshotCallFor (resource_group location : String) (d : Disk) : Event → Bool
  | Event.snapshotCall rg dn di _ loc =>
      rg == resource_group && dn == d.name &&
        di == d.managed_disk_id && loc == location
  | _ => false

/-- The prefix of a trace strictly before the first event satisfying `p`. -/
def eventsBefore (p : Event → Bool) (evs : List Event) : List Event :=
  evs.takeWhile (fun e => !p e)

def noMutatingEvents (evs : List Event) : Bool :=
  evs.all (fun e => !e.isMutating)

def noSnapshotSubmits (evs : List Event) : Bool :=
  evs.all (fun e => !e.isSnapshotSubmit)

def noStartCalls (evs : List Event) : Bool :=
  evs.all (fun e => !e.isStartCall)

/-- Every disk of `disks` has a snapshot attempt recorded in `evs`. -/
def snapshotAttemptedForAll (resource_group location : String)
    (disks : List Disk) (evs : List Event) : Bool :=
  disks.all (fun d => evs.any (isSnapshotCallFor resource_group location d))

/-- The snapshot names `create_snapshot` generates for `disks` when every
call observes the same clock string `ts`. -/
def expectedSnapshotNames (disks : List Disk) (ts : String) : List String :=
  disks.map (fun d => d.name ++ "-" ++ ts)

def diskIds (disks : List Disk) : List String :=
  disks.map (fun d => d.managed_disk_id)

/-- The attach-only data-disk entries `create_vm` builds from the disks. -/
def attachOnly (disks : List Disk) : List AttachDisk :=
  disks.map (fun d => { id := d.managed_disk_id, create_option := "Attach" })

/-! Concrete fixtures used by witnesses and counterexamples. -/

def diskOs : Disk :=
  { name := "osd"
    managed_disk_id := "osd-id"
    storage_account_type := "Premium_LRS" }

def diskData : Disk :=
  { name := "dd1"
    managed_disk_id := "dd1-id"
    storage_account_type := "StandardSSD_ZRS" }

def vmA : VMInfo :=
  { zones := some ["1"]
    vm_size := "Standard_D2s_v3"
    location := "eastus"
    os_disk := diskOs
    data_disks := [diskData]
    network_interface_ids := ["nic-id"] }

def envA : Env :=
  { getVm := fun _ _ => GetVmResult.ok vmA
    skuCatalog := Except.ok [{ name := "Standard_D2s_v3", locations := ["eastus", "westus"] }]
    snapOutcome := fun _ => SnapOutcome.ok
    deleteOutcome := fun _ _ => DeleteOutcome.ok
    createOutcome := fun _ _ => CreateOutcome.ok
    startOutcome := fun _ _ => StartOutcome.ok
    timestamp := fun _ => "20250101120000"
    checkOnly := false }

def rowA : Row :=
  { source_rg := "rg"
    source_vm := "vm"
    source_os_type := " Linux "
    desired_rg := "rg2"
    desired_vm := "vm2"
    desired_zone := "2" }

/-- The same record asking for a zone the VM is already in. -/
def rowSame : Row :=
  { rowA with desired_zone := "1" }

def envCheckOnly : Env :=
  { envA with checkOnly := true }

/-- Every snapshot submission fails with `ResourceNotFoundError`. -/
def envSnapRNF : Env :=
  { envA with snapOutcome := fun _ => SnapOutcome.resourceNotFound }

/-- The VM-create submission raises an exception that is not a
`ResourceExistsError`. -/
def envCreateErr : Env :=
  { envA with createOutcome := fun _ _ => CreateOutcome.otherError }

/-- The source VM exists but is pinned to no zone (`vm.zones` is `None`). -/
def vmNoZones : VMInfo :=
  { vmA with zones := none }

def envNoZones : Env :=
  { envA with getVm := fun _ _ => GetVmResult.ok vmNoZones }

/-- A VM whose OS disk and data disk carry the same display name. -/
def vmDupNames : VMInfo :=
  { vmA with
    os_disk := { name := "d", managed_disk_id := "id1", storage_account_type := "Premium_LRS" }
    data_disks := [{ name := "d", managed_disk_id := "id2", storage_account_type := "Premium_LRS" }] }

def envDupNames : Env :=
  { envA with getVm := fun _ _ => GetVmResult.ok vmDupNames }

/-- The SKU-catalog enumeration throws. -/
def envSkuErr : Env :=
  { envA with skuCatalog := Except.error () }

/-- The VM-create submission raises a `ResourceExistsError` whose message
mentions `SkuNotAvailable` (caught and logged as a warning). -/
def envCreateSkuErr : Env :=
  { envA with createOutcome := fun _ _ => CreateOutcome.resourceExistsSku }

/-- The create request `create_vm` builds for `rowA` against `vmA`. -/
def reqA : CreateReq :=
  { location := "eastus"
    os_disk_id := "osd-id"
    os_create_option := "Attach"
    os_type := "Linux"
    data_disks := [{ id := "dd1-id", create_option := "Attach" }]
    vm_size := "Standard_D2s_v3"
    network_interface_id := "nic-id"
    zones := ["2"] }

lemma takeWhile_append_of_forall {α : Type} {p : α → Bool} {l₁ l₂ : List α}
    (h : ∀ e ∈ l₁, p e = true) :
    (l₁ ++ l₂).takeWhile p = l₁ ++ l₂.takeWhile p := by
  induction l₁ with
  | nil => simp
  | cons x xs ih =>
    simp only [List.cons_append, List.takeWhile_cons]
    rw [h x (by simp), ih (fun e he => h e (by simp [he]))]
    simp

lemma mem_list_vm_disks {vm : VMInfo} {e : Event}
    (h : e ∈ list_vm_disks vm) : e = Event.logInfo := by
  simp only [list_vm_disks, List.mem_cons, List.mem_map] at h
  rcases h with h | ⟨_, _, h⟩ <;> simp [h.symm]

lemma create_snapshot_head (env : Env) (rg dn di loc st : String) (t : Nat) :
    Event.snapshotCall rg dn di (dn ++ "-" ++ env.timestamp t) loc ∈
      (create_snapshot env rg dn di loc st t).1 := by
  rcases hout : env.snapOutcome di <;> simp [create_snapshot, hout]

lemma mem_create_snapshot {env : Env} {rg dn di loc st : String} {t : Nat} {e : Event}
    (h : e ∈ (create_snapshot env rg dn di loc st t).1) :
    e.isSnapshotCall = true ∨ e.isSnapshotSubmit = true ∨ e = Event.logError := by
  rcases hout : env.snapOutcome di with _ | _ | _ <;>
    simp only [create_snapshot, hout, List.mem_cons, List.not_mem_nil, or_false] at h
  · rcases h with h | h <;> subst h <;>
      simp [Event.isSnapshotCall, Event.isSnapshotSubmit]
  · rcases h with h | h <;> subst h <;> simp [Event.isSnapshotCall]
  · subst h; simp [Event.isSnapshotCall]

lemma mem_snapshotAll {env : Env} {rg loc : String} :
    ∀ {t : Nat} {disks : List Disk} {e : Event},
    e ∈ (snapshotAll env rg loc t disks).1 →
    e.isSnapshotCall = true ∨ e.isSnapshotSubmit = true ∨ e = Event.logError := by
  intro t disks
  induction disks generalizing t with
  | nil => intro e h; simp [snapshotAll] at h
  | cons d rest ih =>
    intro e h
    rcases hcs : create_snapshot env rg d.name d.managed_disk_id loc
        d.storage_account_type t with ⟨cevs, craised⟩
    rcases craised <;> simp only [snapshotAll, hcs] at h
    · rcases hrec : snapshotAll env rg loc (t + 1) rest with ⟨evs2, t2, r2⟩
      rw [hrec] at h
      simp only [List.mem_append] at h
      rcases h with h | h
      · exact mem_create_snapshot (by rw [hcs]; exact h)
      · exact ih (by rw [hrec]; exact h)
    · exact mem_create_snapshot (by rw [hcs]; exact h)

lemma snapshotAll_any_false {env : Env} {rg loc : String} {p : Event → Bool}
    (hp1 : ∀ a b c d e, p (Event.snapshotCall a b c d e) = false)
    (hp2 : ∀ a b s, p (Event.snapshotSubmit a b s) = false)
    (hp3 : p Event.logError = false)
    (t : Nat) (disks : List Disk) :
    ((snapshotAll env rg loc t disks).1.any p) = false := by
  rw [List.any_eq_false]
  intro e he
  rcases mem_snapshotAll he with h | h | h <;>
    cases e <;>
    simp_all [Event.isSnapshotCall, Event.isSnapshotSubmit, hp1, hp2, hp3]

lemma snapshotAll_covers {env : Env} {rg loc : String} :
    ∀ {t : Nat} {disks : List Disk} {evs : List Event} {t2 : Nat},
    snapshotAll env rg loc t disks = (evs, t2, false) →
    ∀ d ∈ disks, (evs.any (isSnapshotCallFor rg loc d)) = true := by
  intro t disks
  induction disks generalizing t with
  | nil => intro evs t2 h d hd; simp at hd
  | cons d0 rest ih =>
    intro evs t2 h d hd
    rcases hcs : create_snapshot env rg d0.name d0.managed_disk_id loc
        d0.storage_account_type t with ⟨cevs, craised⟩
    rcases craised
    · rcases hrec : snapshotAll env rg loc (t + 1) rest with ⟨evs2, t2', r2⟩
      simp only [snapshotAll, hcs, hrec, Prod.mk.injEq] at h
      obtain ⟨hevs, ht2, hr2⟩ := h
      rcases List.mem_cons.mp hd with hd0 | hdrest
      · subst hd0
        have hc := create_snapshot_head env rg d.name d.managed_disk_id loc
          d.storage_account_type t
        rw [hcs] at hc
        rw [← hevs, List.any_append]
        have hone : (cevs.any (isSnapshotCallFor rg loc d)) = true :=
          List.any_eq_true.mpr ⟨_, hc, by simp [isSnapshotCallFor]⟩
        simp [hone]
      · rw [← hevs, List.any_append]
        have htwo : (evs2.any (isSnapshotCallFor rg loc d)) = true := by
          subst hr2
          exact ih hrec d hdrest
        simp [htwo]
    · simp only [snapshotAll, hcs, Prod.mk.injEq] at h
      exact absurd h.2.2 (by simp)

lemma strAppend_right_cancel {a b c : String} (h : a ++ c = b ++ c) : a = b := by
  apply String.ext
  have hd : a.data ++ c.data = b.data ++ c.data := by
    rw [← String.data_append, ← String.data_append, h]
  exact List.append_cancel_right hd

lemma appendNameTs_injective (ts : String) :
    Function.Injective (fun s : String => s ++ "-" ++ ts) := by
  intro a b h
  have h1 : a ++ "-" = b ++ "-" := strAppend_right_cancel (by simpa using h)
  exact strAppend_right_cancel h1

lemma snapshotCallNames_eq_nil {evs : List Event}
    (h : ∀ e ∈ evs, snapNameOf e = none) : snapshotCallNames evs = [] :=
  List.filterMap_eq_nil_iff.mpr h

lemma snapshotSubmitSources_eq_nil {evs : List Event}
    (h : ∀ e ∈ evs, snapSubmitSourceOf e = none) : snapshotSubmitSources evs = [] :=
  List.filterMap_eq_nil_iff.mpr h

/-- When every snapshot submission succeeds and every call observes the same
clock string, the snapshot loop attempts exactly one request per disk in
order, generating `<diskName>-<timestamp>` names, successfully submits one
request per disk in order, and raises nothing. -/
lemma snapshotAll_ok {env : Env} {rg loc ts : String}
    (hts : ∀ i, env.timestamp i = ts) :
    ∀ (t : Nat) (disks : List Disk),
    (∀ d ∈ disks, env.snapOutcome d.managed_disk_id = SnapOutcome.ok) →
    snapshotCallNames (snapshotAll env rg loc t disks).1 =
        expectedSnapshotNames disks ts ∧
    snapshotSubmitSources (snapshotAll env rg loc t disks).1 = diskIds disks ∧
    (snapshotAll env rg loc t disks).2.2 = false := by
  intro t disks
  induction disks generalizing t with
  | nil =>
    intro _
    simp [snapshotAll, snapshotCallNames, snapshotSubmitSources,
      expectedSnapshotNames, diskIds]
  | cons d rest ih =>
    intro hok
    have hd := hok d (by simp)
    have hcs : create_snapshot env rg d.name d.managed_disk_id loc
        d.storage_account_type t =
        ([Event.snapshotCall rg d.name d.managed_disk_id
            (d.name ++ "-" ++ env.timestamp t) loc,
          Event.snapshotSubmit rg (d.name ++ "-" ++ env.timestamp t)
            { location := loc
              create_option := "Copy"
              source_resource_id := d.managed_disk_id
              sku_name := "Standard_ZRS" }], false) := by
      simp [create_snapshot, hd]
    obtain ⟨ih1, ih2, ih3⟩ := ih (t + 1) (fun d2 hd2 => hok d2 (by simp [hd2]))
    rcases hrec : snapshotAll env rg loc (t + 1) rest with ⟨evs2, t2, r2⟩
    rw [hrec] at ih1 ih2 ih3
    simp only [snapshotAll, hcs, hrec]
    refine ⟨?_, ?_, by simpa using ih3⟩
    · simp only [snapshotCallNames, List.filterMap_append] at ih1 ⊢
    
      simp [snapNameOf, ih1, expectedSnapshotNames, hts]
    · simp only [snapshotSubmitSources, List.filterMap_append] at ih2 ⊢
      simp [snapSubmitSourceOf, ih2, diskIds]

/-- C8: `check_sku_availability(location, vm_size)` returns true iff some
catalog entry has name `vm_size` and lists `location` among its locations,
and returns false (fail closed) whenever the catalog enumeration throws. -/
theorem C8_sku_availability (env : Env) (location vm_size : String) :
    (check_sku_availability env location vm_size = true ↔
      ∃ skus, env.skuCatalog = Except.ok skus ∧
        ∃ sku ∈ skus, sku.name = vm_size ∧ location ∈ sku.locations) ∧
    (env.skuCatalog = Except.error () →
      check_sku_availability env location vm_size = false) := by
  rcases hc : env.skuCatalog with e | skus <;>
    simp [check_sku_availability, is_sku_available, hc, List.any_eq_true,
      List.elem_iff, and_assoc]

/-- Witness for C8 at concrete inputs: the size is offered in `eastus`, is
not offered in `francecentral`, and a throwing catalog yields `false`. -/
theorem C8_sku_availability_witness :
    check_sku_availability envA "eastus" "Standard_D2s_v3" = true ∧
    check_sku_availability envSkuErr "eastus" "Standard_D2s_v3" = false :=
  ⟨(C8_sku_availability envA "eastus" "Standard_D2s_v3").1.mpr
      ⟨[{ name := "Standard_D2s_v3", locations := ["eastus", "westus"] }], rfl,
        ⟨{ name := "Standard_D2s_v3", locations := ["eastus", "westus"] },
          by decide, rfl, by decide⟩⟩,
    (C8_sku_availability envSkuErr "eastus" "Standard_D2s_v3").2 rfl⟩

/-- C2: when the desired zone is among the source VM's current zones, the
record emits no mutating operation, falls through to the next record with a
warning, and is never treated as an error. -/
theorem C2_same_zone_no_op (env : Env) (t : Nat) (row : Row) (vm : VMInfo)
    (zones : List String)
    (hg : env.getVm row.source_rg row.source_vm = GetVmResult.ok vm)
    (hz : vm.zones = some zones)
    (hmem : zones.contains row.desired_zone = true) :
    noMutatingEvents (processRow env t row).1 = true ∧
    (processRow env t row).2.2 = StepResult.next ∧
    Event.logWarning ∈ (processRow env t row).1 ∧
    Event.logError ∉ (processRow env t row).1 := by
  have hmem2 : row.desired_zone ∈ zones := by rwa [List.elem_iff] at hmem
  simp [processRow, check_vm_exists, hg, hz, hmem2, noMutatingEvents,
    list_vm_disks, Event.isMutating, List.mem_map]

/-- Witness for C2: a record whose desired zone "1" is already a zone of the
source VM. -/
theorem C2_same_zone_no_op_witness :
    noMutatingEvents (processRow envA 0 rowSame).1 = true ∧
    (processRow envA 0 rowSame).2.2 = StepResult.next ∧
    Event.logWarning ∈ (processRow envA 0 rowSame).1 ∧
    Event.logError ∉ (processRow envA 0 rowSame).1 :=
  C2_same_zone_no_op envA 0 rowSame vmA ["1"] rfl rfl (by decide)

/-- C9: when the source VM exists but `vm.zones` is `None`, the membership
test `desired_zone in vm.zones` raises an uncaught `TypeError` that
terminates the whole run before any mutating operation, regardless of the
remaining records. -/
theorem C9_none_zones_uncaught_typeerror (env : Env) (t : Nat) (row : Row)
    (vm : VMInfo) (rest : List Row)
    (hg : env.getVm row.source_rg row.source_vm = GetVmResult.ok vm)
    (hz : vm.zones = none) :
    (processRow env t row).2.2 = StepResult.uncaught PyError.typeError ∧
    noMutatingEvents (processRow env t row).1 = true ∧
    mainLoop env t (row :: rest) =
      ((processRow env t row).1, RunResult.crashed PyError.typeError) := by
  refine ⟨?_, ?_, ?_⟩ <;>
    simp [processRow, check_vm_exists, hg, hz, mainLoop, noMutatingEvents,
      list_vm_disks, Event.isMutating, List.mem_map]

/-- Witness for C9: a zone-less source VM crashes the run with a `TypeError`
even though another record is still pending. -/
theorem C9_none_zones_uncaught_typeerror_witness :
    (processRow envNoZones 0 rowA).2.2 = StepResult.uncaught PyError.typeError ∧
    noMutatingEvents (processRow envNoZones 0 rowA).1 = true ∧
    mainLoop envNoZones 0 (rowA :: [rowSame]) =
      ((processRow envNoZones 0 rowA).1, RunResult.crashed PyError.typeError) :=
  C9_none_zones_uncaught_typeerror envNoZones 0 rowA vmNoZones [rowSame] rfl rfl

lemma processRow_checkOnly (env : Env) (t : Nat) (row : Row)
    (h : env.checkOnly = true) :
    noMutatingEvents (processRow env t row).1 = true := by
  rcases hg : env.getVm row.source_rg row.source_vm with vm | _ | _
  · rcases hz : vm.zones with _ | zones
    · simp [processRow, check_vm_exists, hg, hz, noMutatingEvents,
        list_vm_disks, Event.isMutating, List.mem_map]
    · by_cases hmem : row.desired_zone ∈ zones <;>
        simp [processRow, check_vm_exists, hg, hz, h, hmem, noMutatingEvents,
          list_vm_disks, Event.isMutating, List.mem_map]
  · simp [processRow, check_vm_exists, hg, noMutatingEvents, Event.isMutating]
  · simp [processRow, check_vm_exists, hg, noMutatingEvents, Event.isMutating]

/-- C5: in check-only mode no record ever emits a mutating operation
(no snapshot, delete, create or start), over the whole run. -/
theorem C5_check_only_no_mutations (env : Env) (rows : List Row)
    (h : env.checkOnly = true) :
    noMutatingEvents (Script.main env rows).1 = true := by
  have H : ∀ (rs : List Row) (t : Nat),
      noMutatingEvents (mainLoop env t rs).1 = true := by
    intro rs
    induction rs with
    | nil => intro t; simp [mainLoop, noMutatingEvents]
    | cons row rest ih =>
      intro t
      rcases hpr : processRow env t row with ⟨evs, t2, res⟩
      have hrow := processRow_checkOnly env t row h
      rw [hpr] at hrow
      rcases res with _ | _ | e
      · rcases hml : mainLoop env t2 rest with ⟨evs2, r⟩
        have hrest := ih t2
        rw [hml] at hrest
        simp only [mainLoop, hpr, hml, noMutatingEvents, List.all_append,
          Bool.and_eq_true] at hrow hrest ⊢
        exact ⟨hrow, hrest⟩
      · simpa [mainLoop, hpr] using hrow
      · simpa [mainLoop, hpr] using hrow
  simpa [Script.main] using H rows 0

/-- Witness for C5: a check-only run over two records emits no mutating
event. -/
theorem C5_check_only_no_mutations_witness :
    noMutatingEvents (Script.main envCheckOnly [rowA, rowSame]).1 = true :=
  C5_check_only_no_mutations envCheckOnly [rowA, rowSame] rfl

/-- Counterexample to C1 as stated: when every snapshot submission fails
with `ResourceNotFoundError` (caught and only logged by `create_snapshot`),
the source VM is still deleted although not a single snapshot request was
successfully submitted for its disks. -/
theorem C1_delete_without_submitted_snapshots_cex :
    Event.deleteBegin "rg" "vm" ∈ (processRow envSnapRNF 0 rowA).1 ∧
    noSnapshotSubmits (processRow envSnapRNF 0 rowA).1 = true := by
  exact ⟨by decide, by decide⟩

/-- Counterexample to C3 as stated: a VM-create submission error that is not
a `ResourceExistsError` is not caught; the record reaches the create step but
`start_vm` is never invoked and the whole run crashes. -/
theorem C3_create_error_crashes_run_cex :
    ((processRow envCreateErr 0 rowA).1.any Event.isCreateCall) = true ∧
    noStartCalls (processRow envCreateErr 0 rowA).1 = true ∧
    (processRow envCreateErr 0 rowA).2.2 = StepResult.uncaught PyError.azureError ∧
    (Script.main envCreateErr [rowA]).2 = RunResult.crashed PyError.azureError := by
  exact ⟨by decide, by decide, by decide, by decide⟩

/-- Counterexample to C7 as stated: when the OS disk and a data disk carry
the same display name and both snapshot calls fall in the same clock second,
the two generated snapshot names collide, so they are not pairwise
distinct. -/
theorem C7_duplicate_snapshot_names_cex :
    snapshotCallNames (processRow envDupNames 0 rowA).1 =
      ["d-20250101120000", "d-20250101120000"] ∧
    ¬ (snapshotCallNames (processRow envDupNames 0 rowA).1).Nodup := by
  exact ⟨by decide, by decide⟩
lemma eventsBefore_eq_of_split {p : Event → Bool} {l₁ l₂ : List Event} {e : Event}
    (h₁ : ∀ x ∈ l₁, p x = false) (he : p e = true) :
    eventsBefore p (l₁ ++ e :: l₂) = l₁ := by
  rw [eventsBefore, takeWhile_append_of_forall (by intro x hx; simp [h₁ x hx])]
  simp [List.takeWhile_cons, he]

lemma not_createCall_mem_snapshotAll {env : Env} {rg loc : String} {t : Nat}
    {disks : List Disk} {a b : String} {r : CreateReq} :
    Event.createCall a b r ∉ (snapshotAll env rg loc t disks).1 := by
  intro h
  rcases mem_snapshotAll h with h' | h' | h' <;>
    simp [Event.isSnapshotCall, Event.isSnapshotSubmit] at h'

lemma snapshotAll_isCreateCall_false {env : Env} {rg loc : String} {t : Nat}
    {disks : List Disk} :
    (((snapshotAll env rg loc t disks).1).any Event.isCreateCall) = false :=
  snapshotAll_any_false (by intro a b c d e; rfl) (by intro a b s; rfl) rfl t disks

/-- C3 (amended): for a record reaching the create step, a
`ResourceExistsError` raised by the VM-create submission (including the
`SkuNotAvailable` case) is caught and logged but not re-raised, and the run
proceeds to invoke `start_vm` on the (possibly nonexistent) target VM;
exceptions of other classes at create time are not caught (see the
counterexample).  The record then completes only if `begin_start` itself
does not raise: a start-time exception is equally uncaught and crashes the
run. -/
theorem C3_resource_exists_error_swallowed (env : Env) (t : Nat) (row : Row)
    (hreach : ((processRow env t row).1.any Event.isCreateCall) = true)
    (hout : env.createOutcome row.desired_rg row.desired_vm ≠ CreateOutcome.otherError) :
    Event.startCall row.desired_rg row.desired_vm ∈ (processRow env t row).1 ∧
    (env.startOutcome row.desired_rg row.desired_vm = StartOutcome.ok →
      (processRow env t row).2.2 = StepResult.next) ∧
    (env.startOutcome row.desired_rg row.desired_vm = StartOutcome.error →
      (processRow env t row).2.2 = StepResult.uncaught PyError.azureError) := by
  rcases hg : env.getVm row.source_rg row.source_vm with vm | _ | _
  case resourceNotFound =>
    simp [processRow, check_vm_exists, hg, Event.isCreateCall] at hreach
  case otherError =>
    simp [processRow, check_vm_exists, hg, Event.isCreateCall] at hreach
  case ok =>
  rcases hz : vm.zones with _ | zones
  · simp [processRow, check_vm_exists, hg, hz, list_vm_disks,
      Event.isCreateCall] at hreach
  by_cases hmem : row.desired_zone ∈ zones
  · simp [processRow, check_vm_exists, hg, hz, hmem, list_vm_disks,
      Event.isCreateCall] at hreach
  by_cases hco : env.checkOnly = true
  · simp [processRow, check_vm_exists, hg, hz, hmem, hco, list_vm_disks,
      Event.isCreateCall] at hreach
  by_cases hsku : check_sku_availability env vm.location vm.vm_size = false
  · simp [processRow, check_vm_exists, hg, hz, hmem, hco, hsku, list_vm_disks,
      Event.isCreateCall] at hreach
  rcases hsnap : snapshotAll env row.source_rg vm.location t
      (vm.os_disk :: vm.data_disks) with ⟨snapEvs, t2, raised⟩
  have hsnapno : (snapEvs.any Event.isCreateCall) = false := by
    have h := @snapshotAll_isCreateCall_false env row.source_rg vm.location t
      (vm.os_disk :: vm.data_disks)
    rw [hsnap] at h
    exact h
  rcases raised
  · rcases hnic : vm.network_interface_ids with _ | ⟨nic, nicRest⟩
    · simp [processRow, check_vm_exists, hg, hz, hmem, hco, hsku, hsnap, hnic,
        list_vm_disks, Event.isCreateCall, hsnapno] at hreach
    · rcases hdel : env.deleteOutcome row.source_rg row.source_vm with _ | _
      · rcases hcr : env.createOutcome row.desired_rg row.desired_vm with _ | _ | _ | _ <;>
          first
            | exact absurd hcr hout
            | (rcases hst : env.startOutcome row.desired_rg row.desired_vm with _ | _ <;>
                refine ⟨?_, fun hok => ?_, fun herr => ?_⟩ <;>
                simp_all [processRow, check_vm_exists, hz, hmem, hco, hsku, hsnap,
                  hnic, delete_vm, create_vm, start_vm, list_vm_disks])
      · simp [processRow, check_vm_exists, hg, hz, hmem, hco, hsku, hsnap, hnic,
          delete_vm, hdel, list_vm_disks, Event.isCreateCall, hsnapno] at hreach
  · simp [processRow, check_vm_exists, hg, hz, hmem, hco, hsku, hsnap,
      list_vm_disks, Event.isCreateCall, hsnapno] at hreach

lemma create_vm_fst_shape {env : Env} {rg n zone osid : String} {dd : List String}
    {nic size loc ot : String} {crEvs : List Event} {craised : Bool}
    (h : create_vm env rg n zone osid dd nic size loc ot = (crEvs, craised)) :
    ∃ req rest, crEvs = Event.logInfo :: Event.createCall rg n req :: rest ∧
      ∀ x ∈ rest, Event.isCreateCall x = false := by
  rcases hcr : env.createOutcome rg n <;> rw [create_vm, hcr] at h <;>
    simp only [Prod.mk.injEq] at h <;>
    refine ⟨_, _, h.1.symm, ?_⟩ <;>
    intro x hx <;> simp only [List.mem_cons, List.not_mem_nil, or_false] at hx <;>
    first
      | exact absurd hx (by simp)
      | (rcases hx with rfl <;> rfl)

/-- C4: `create_vm` is never invoked before the delete of the source VM has
been confirmed complete: every `createCall` in a record's trace is preceded
by the `deleteCompleted` confirmation that `delete_vm` blocked on. -/
theorem C4_create_only_after_delete_confirmed (env : Env) (t : Nat) (row : Row)
    (hreach : ((processRow env t row).1.any Event.isCreateCall) = true) :
    ((eventsBefore Event.isCreateCall (processRow env t row).1).any
      (isDeleteCompletedFor row.source_rg row.source_vm)) = true := by
  rcases hg : env.getVm row.source_rg row.source_vm with vm | _ | _
  case resourceNotFound =>
    simp [processRow, check_vm_exists, hg, Event.isCreateCall] at hreach
  case otherError =>
    simp [processRow, check_vm_exists, hg, Event.isCreateCall] at hreach
  case ok =>
  rcases hz : vm.zones with _ | zones
  · simp [processRow, check_vm_exists, hg, hz, list_vm_disks,
      Event.isCreateCall] at hreach
  by_cases hmem : row.desired_zone ∈ zones
  · simp [processRow, check_vm_exists, hg, hz, hmem, list_vm_disks,
      Event.isCreateCall] at hreach
  by_cases hco : env.checkOnly = true
  · simp [processRow, check_vm_exists, hg, hz, hmem, hco, list_vm_disks,
      Event.isCreateCall] at hreach
  by_cases hsku : check_sku_availability env vm.location vm.vm_size = false
  · simp [processRow, check_vm_exists, hg, hz, hmem, hco, hsku, list_vm_disks,
      Event.isCreateCall] at hreach
  rcases hsnap : snapshotAll env row.source_rg vm.location t
      (vm.os_disk :: vm.data_disks) with ⟨snapEvs, t2, raised⟩
  have hsnapno : (snapEvs.any Event.isCreateCall) = false := by
    have h := @snapshotAll_isCreateCall_false env row.source_rg vm.location t
      (vm.os_disk :: vm.data_disks)
    rw [hsnap] at h
    exact h
  have hsnapmem : ∀ x ∈ snapEvs, Event.isCreateCall x = false := by
    intro x hx
    have h2 := hsnapno
    rw [List.any_eq_false] at h2
    simpa using h2 x hx
  rcases raised
  · rcases hnic : vm.network_interface_ids with _ | ⟨nic, nicRest⟩
    · simp [processRow, check_vm_exists, hg, hz, hmem, hco, hsku, hsnap, hnic,
        list_vm_disks, Event.isCreateCall, hsnapno] at hreach
    · rcases hdel : env.deleteOutcome row.source_rg row.source_vm with _ | _
      · -- delete confirmed; the create call follows
        rcases hcv : create_vm env row.desired_rg row.desired_vm row.desired_zone
            vm.os_disk.managed_disk_id
            (vm.data_disks.map (fun disk => disk.managed_disk_id)) nic
            vm.vm_size vm.location (pyOsType row.source_os_type) with ⟨crEvs, craised⟩
        obtain ⟨req, rest, hcrEvs, hrest⟩ := create_vm_fst_shape hcv
        subst hcrEvs
        have hl₁ : ∀ x ∈ (Event.logInfo :: Event.logInfo :: list_vm_disks vm) ++
            Event.skuQuery vm.location vm.vm_size ::
              (snapEvs ++ [Event.logInfo, Event.deleteBegin row.source_rg row.source_vm,
                Event.deleteCompleted row.source_rg row.source_vm, Event.logInfo]),
            Event.isCreateCall x = false := by
          intro x hx
          rcases List.mem_append.mp hx with h | h
          · simp only [List.mem_cons] at h
            rcases h with rfl | rfl | h
            · rfl
            · rfl
            · rw [mem_list_vm_disks h]; rfl
          · simp only [List.mem_cons] at h
            rcases h with rfl | h
            · rfl
            · rcases List.mem_append.mp h with h | h
              · exact hsnapmem x h
              · simp only [List.mem_cons, List.not_mem_nil, or_false] at h
                rcases h with rfl | rfl | rfl | rfl <;> rfl
        have hdc : Event.deleteCompleted row.source_rg row.source_vm ∈
            (Event.logInfo :: Event.logInfo :: list_vm_disks vm) ++
            Event.skuQuery vm.location vm.vm_size ::
              (snapEvs ++ [Event.logInfo, Event.deleteBegin row.source_rg row.source_vm,
                Event.deleteCompleted row.source_rg row.source_vm, Event.logInfo]) := by
          simp
        rcases craised
        · rcases hst : env.startOutcome row.desired_rg row.desired_vm with _ | _
          · have htr : (processRow env t row).1 =
                ((Event.logInfo :: Event.logInfo :: list_vm_disks vm) ++
                  Event.skuQuery vm.location vm.vm_size ::
                    (snapEvs ++ [Event.logInfo, Event.deleteBegin row.source_rg row.source_vm,
                      Event.deleteCompleted row.source_rg row.source_vm, Event.logInfo])) ++
                Event.createCall row.desired_rg row.desired_vm req ::
                  (rest ++ [Event.logInfo, Event.startCall row.desired_rg row.desired_vm] ++
                    list_vm_disks vm ++ [Event.logInfo]) := by
              simp [processRow, check_vm_exists, hg, hz, hmem, hco, hsku, hsnap, hnic,
                delete_vm, hdel, hcv, start_vm, hst]
            rw [htr, eventsBefore_eq_of_split hl₁ (by rfl)]
            exact List.any_eq_true.mpr ⟨_, hdc, by simp [isDeleteCompletedFor]⟩
          · have htr : (processRow env t row).1 =
                ((Event.logInfo :: Event.logInfo :: list_vm_disks vm) ++
                  Event.skuQuery vm.location vm.vm_size ::
                    (snapEvs ++ [Event.logInfo, Event.deleteBegin row.source_rg row.source_vm,
                      Event.deleteCompleted row.source_rg row.source_vm, Event.logInfo])) ++
                Event.createCall row.desired_rg row.desired_vm req ::
                  (rest ++ [Event.logInfo, Event.startCall row.desired_rg row.desired_vm]) := by
              simp [processRow, check_vm_exists, hg, hz, hmem, hco, hsku, hsnap, hnic,
                delete_vm, hdel, hcv, start_vm, hst]
            rw [htr, eventsBefore_eq_of_split hl₁ (by rfl)]
            exact List.any_eq_true.mpr ⟨_, hdc, by simp [isDeleteCompletedFor]⟩
        · have htr : (processRow env t row).1 =
              ((Event.logInfo :: Event.logInfo :: list_vm_disks vm) ++
                Event.skuQuery vm.location vm.vm_size ::
                  (snapEvs ++ [Event.logInfo, Event.deleteBegin row.source_rg row.source_vm,
                    Event.deleteCompleted row.source_rg row.source_vm, Event.logInfo])) ++
              Event.createCall row.desired_rg row.desired_vm req :: rest := by
            simp [processRow, check_vm_exists, hg, hz, hmem, hco, hsku, hsnap, hnic,
              delete_vm, hdel, hcv]
          rw [htr, eventsBefore_eq_of_split hl₁ (by rfl)]
          exact List.any_eq_true.mpr ⟨_, hdc, by simp [isDeleteCompletedFor]⟩
      · simp [processRow, check_vm_exists, hg, hz, hmem, hco, hsku, hsnap, hnic,
          delete_vm, hdel, list_vm_disks, Event.isCreateCall, hsnapno] at hreach
  · simp [processRow, check_vm_exists, hg, hz, hmem, hco, hsku, hsnap,
      list_vm_disks, Event.isCreateCall, hsnapno] at hreach

/-- C1 (amended): the source VM is deleted only after `create_snapshot` has
been invoked (a snapshot request attempted) for the OS disk and every data
disk: every `deleteBegin` in a record's trace is preceded by one snapshot
attempt per attached disk.  A submission that fails with
`ResourceNotFoundError` is only logged and does not prevent the deletion
(see the counterexample), so attempted cannot be strengthened to
successfully submitted. -/
theorem C1_delete_only_after_snapshot_attempts (env : Env) (t : Nat) (row : Row) (vm : VMInfo)
    (hg : env.getVm row.source_rg row.source_vm = GetVmResult.ok vm)
    (hdel : ((processRow env t row).1.any isDeleteBeginEv) = true) :
    snapshotAttemptedForAll row.source_rg vm.location (vm.os_disk :: vm.data_disks)
      (eventsBefore isDeleteBeginEv (processRow env t row).1) = true := by
  rcases hz : vm.zones with _ | zones
  · simp [processRow, check_vm_exists, hg, hz, list_vm_disks,
      isDeleteBeginEv] at hdel
  by_cases hmem : row.desired_zone ∈ zones
  · simp [processRow, check_vm_exists, hg, hz, hmem, list_vm_disks,
      isDeleteBeginEv] at hdel
  by_cases hco : env.checkOnly = true
  · simp [processRow, check_vm_exists, hg, hz, hmem, hco, list_vm_disks,
      isDeleteBeginEv] at hdel
  by_cases hsku : check_sku_availability env vm.location vm.vm_size = false
  · simp [processRow, check_vm_exists, hg, hz, hmem, hco, hsku, list_vm_disks,
      isDeleteBeginEv] at hdel
  rcases hsnap : snapshotAll env row.source_rg vm.location t
      (vm.os_disk :: vm.data_disks) with ⟨snapEvs, t2, raised⟩
  have hsb : (snapEvs.any isDeleteBeginEv) = false := by
    have h := @snapshotAll_any_false env row.source_rg vm.location isDeleteBeginEv
      (by intro a b c d e; rfl) (by intro a b s; rfl) rfl t (vm.os_disk :: vm.data_disks)
    rw [hsnap] at h
    exact h
  have hsbmem : ∀ x ∈ snapEvs, isDeleteBeginEv x = false := by
    intro x hx
    have h2 := hsb
    rw [List.any_eq_false] at h2
    simpa using h2 x hx
  rcases raised
  · rcases hnic : vm.network_interface_ids with _ | ⟨nic, nicRest⟩
    · simp [processRow, check_vm_exists, hg, hz, hmem, hco, hsku, hsnap, hnic,
        list_vm_disks, isDeleteBeginEv, hsb] at hdel
    · have hcov := snapshotAll_covers hsnap
      have hl₁ : ∀ x ∈ (Event.logInfo :: Event.logInfo :: list_vm_disks vm) ++
          Event.skuQuery vm.location vm.vm_size :: (snapEvs ++ [Event.logInfo]),
          isDeleteBeginEv x = false := by
        intro x hx
        rcases List.mem_append.mp hx with h | h
        · simp only [List.mem_cons] at h
          rcases h with rfl | rfl | h
          · rfl
          · rfl
          · rw [mem_list_vm_disks h]; rfl
        · simp only [List.mem_cons] at h
          rcases h with rfl | h
          · rfl
          · rcases List.mem_append.mp h with h | h
            · exact hsbmem x h
            · simp only [List.mem_cons, List.not_mem_nil, or_false] at h
              rcases h with rfl <;> rfl
      have hgoal : snapshotAttemptedForAll row.source_rg vm.location
          (vm.os_disk :: vm.data_disks)
          ((Event.logInfo :: Event.logInfo :: list_vm_disks vm) ++
            Event.skuQuery vm.location vm.vm_size :: (snapEvs ++ [Event.logInfo])) = true := by
        simp only [snapshotAttemptedForAll, List.all_eq_true]
        intro d hd
        obtain ⟨e, he, hp⟩ := List.any_eq_true.mp (hcov d hd)
        exact List.any_eq_true.mpr ⟨e, by simp [he], hp⟩
      rcases hdo : env.deleteOutcome row.source_rg row.source_vm with _ | _
      · rcases hcv : create_vm env row.desired_rg row.desired_vm row.desired_zone
            vm.os_disk.managed_disk_id
            (vm.data_disks.map (fun disk => disk.managed_disk_id)) nic
            vm.vm_size vm.location (pyOsType row.source_os_type) with ⟨crEvs, craised⟩
        rcases craised
        · rcases hst : env.startOutcome row.desired_rg row.desired_vm with _ | _
          · have htr : (processRow env t row).1 =
                ((Event.logInfo :: Event.logInfo :: list_vm_disks vm) ++
                  Event.skuQuery vm.location vm.vm_size :: (snapEvs ++ [Event.logInfo])) ++
                Event.deleteBegin row.source_rg row.source_vm ::
                  (Event.deleteCompleted row.source_rg row.source_vm ::
                    (crEvs ++ [Event.logInfo, Event.startCall row.desired_rg row.desired_vm] ++
                      list_vm_disks vm ++ [Event.logInfo])) := by
              simp [processRow, check_vm_exists, hg, hz, hmem, hco, hsku, hsnap, hnic,
                delete_vm, hdo, hcv, start_vm, hst]
            rw [htr, eventsBefore_eq_of_split hl₁ (by rfl)]
            exact hgoal
          · have htr : (processRow env t row).1 =
                ((Event.logInfo :: Event.logInfo :: list_vm_disks vm) ++
                  Event.skuQuery vm.location vm.vm_size :: (snapEvs ++ [Event.logInfo])) ++
                Event.deleteBegin row.source_rg row.source_vm ::
                  (Event.deleteCompleted row.source_rg row.source_vm ::
                    (crEvs ++ [Event.logInfo, Event.startCall row.desired_rg row.desired_vm])) := by
              simp [processRow, check_vm_exists, hg, hz, hmem, hco, hsku, hsnap, hnic,
                delete_vm, hdo, hcv, start_vm, hst]
            rw [htr, eventsBefore_eq_of_split hl₁ (by rfl)]
            exact hgoal
        · have htr : (processRow env t row).1 =
              ((Event.logInfo :: Event.logInfo :: list_vm_disks vm) ++
                Event.skuQuery vm.location vm.vm_size :: (snapEvs ++ [Event.logInfo])) ++
              Event.deleteBegin row.source_rg row.source_vm ::
                (Event.deleteCompleted row.source_rg row.source_vm :: crEvs) := by
            simp [processRow, check_vm_exists, hg, hz, hmem, hco, hsku, hsnap, hnic,
              delete_vm, hdo, hcv]
          rw [htr, eventsBefore_eq_of_split hl₁ (by rfl)]
          exact hgoal
      · have htr : (processRow env t row).1 =
            ((Event.logInfo :: Event.logInfo :: list_vm_disks vm) ++
              Event.skuQuery vm.location vm.vm_size :: (snapEvs ++ [Event.logInfo])) ++
            Event.deleteBegin row.source_rg row.source_vm :: ([] : List Event) := by
          simp [processRow, check_vm_exists, hg, hz, hmem, hco, hsku, hsnap, hnic,
            delete_vm, hdo]
        rw [htr, eventsBefore_eq_of_split hl₁ (by rfl)]
        exact hgoal
  · simp [processRow, check_vm_exists, hg, hz, hmem, hco, hsku, hsnap,
      list_vm_disks, isDeleteBeginEv, hsb] at hdel

lemma createCall_not_mem_list_vm_disks {vm : VMInfo} {a b : String} {r : CreateReq} :
    Event.createCall a b r ∉ list_vm_disks vm := by
  intro h
  have h2 := mem_list_vm_disks h
  simp at h2

lemma skuQuery_not_mem_list_vm_disks {vm : VMInfo} {a b : String} :
    Event.skuQuery a b ∉ list_vm_disks vm := by
  intro h
  have h2 := mem_list_vm_disks h
  simp at h2

lemma createCall_characterization (env : Env) (t : Nat) (row : Row) (vm : VMInfo)
    (rg name : String) (req : CreateReq)
    (hg : env.getVm row.source_rg row.source_vm = GetVmResult.ok vm)
    (hc : Event.createCall rg name req ∈ (processRow env t row).1) :
    rg = row.desired_rg ∧ name = row.desired_vm ∧
    req.location = vm.location ∧ req.vm_size = vm.vm_size ∧
    req.os_disk_id = vm.os_disk.managed_disk_id ∧
    req.os_create_option = "Attach" ∧
    req.os_type = pyOsType row.source_os_type ∧
    req.data_disks = attachOnly vm.data_disks ∧
    vm.network_interface_ids.head? = some req.network_interface_id ∧
    req.zones = [row.desired_zone] ∧
    (∀ loc size, Event.skuQuery loc size ∈ (processRow env t row).1 →
      loc = vm.location ∧ size = vm.vm_size) := by
  rcases hz : vm.zones with _ | zones
  · simp [processRow, check_vm_exists, hg, hz,
      createCall_not_mem_list_vm_disks] at hc
  by_cases hmem : row.desired_zone ∈ zones
  · simp [processRow, check_vm_exists, hg, hz, hmem,
      createCall_not_mem_list_vm_disks] at hc
  by_cases hco : env.checkOnly = true
  · simp [processRow, check_vm_exists, hg, hz, hmem, hco,
      createCall_not_mem_list_vm_disks] at hc
  by_cases hsku : check_sku_availability env vm.location vm.vm_size = false
  · simp [processRow, check_vm_exists, hg, hz, hmem, hco, hsku,
      createCall_not_mem_list_vm_disks] at hc
  rcases hsnap : snapshotAll env row.source_rg vm.location t
      (vm.os_disk :: vm.data_disks) with ⟨snapEvs, t2, raised⟩
  have hsnapmem : ∀ x ∈ snapEvs, Event.isCreateCall x = false := by
    intro x hx
    have h := @snapshotAll_isCreateCall_false env row.source_rg vm.location t
      (vm.os_disk :: vm.data_disks)
    rw [hsnap, List.any_eq_false] at h
    simpa using h x hx
  have hns : Event.createCall rg name req ∉ snapEvs := by
    intro hmm
    have h2 := hsnapmem _ hmm
    simp [Event.isCreateCall] at h2
  have hsq : ∀ x ∈ snapEvs, ∀ loc size, x ≠ Event.skuQuery loc size := by
    intro x hx loc size heq
    rcases mem_snapshotAll (by rw [hsnap]; exact hx) with h' | h' | h' <;>
      subst heq <;> simp [Event.isSnapshotCall, Event.isSnapshotSubmit] at h'
  rcases raised
  · rcases hnic : vm.network_interface_ids with _ | ⟨nic, nicRest⟩
    · simp [processRow, check_vm_exists, hg, hz, hmem, hco, hsku, hsnap, hnic,
        createCall_not_mem_list_vm_disks, hns] at hc
    · rcases hdo : env.deleteOutcome row.source_rg row.source_vm with _ | _
      · have hqs : ∀ loc size, Event.skuQuery loc size ∉ snapEvs := by
          intro loc size hx
          exact absurd rfl (hsq _ hx loc size)
        rcases hcr : env.createOutcome row.desired_rg row.desired_vm with _ | _ | _ | _ <;>
          rcases hst : env.startOutcome row.desired_rg row.desired_vm with _ | _ <;>
        · simp [processRow, check_vm_exists, hg, hz, hmem, hco, hsku, hsnap, hnic,
            delete_vm, hdo, create_vm, hcr, start_vm, hst,
            createCall_not_mem_list_vm_disks, hns] at hc
          obtain ⟨h1, h2, h3⟩ := hc
          subst h1
          subst h2
          subst h3
          refine ⟨rfl, rfl, rfl, rfl, rfl, rfl, rfl, by simp [attachOnly],
            by simp [hnic], rfl, ?_⟩
          intro loc size hq
          simp [processRow, check_vm_exists, hg, hz, hmem, hco, hsku, hsnap, hnic,
            delete_vm, hdo, create_vm, hcr, start_vm, hst,
            skuQuery_not_mem_list_vm_disks, hqs] at hq
          exact hq
      · simp [processRow, check_vm_exists, hg, hz, hmem, hco, hsku, hsnap, hnic,
          delete_vm, hdo, createCall_not_mem_list_vm_disks, hns] at hc
  · simp [processRow, check_vm_exists, hg, hz, hmem, hco, hsku, hsnap,
      createCall_not_mem_list_vm_disks, hns] at hc

lemma filterMap_snapName_list_vm_disks (vm : VMInfo) :
    (list_vm_disks vm).filterMap snapNameOf = [] :=
  List.filterMap_eq_nil_iff.mpr (by
    intro e he
    rw [mem_list_vm_disks he]
    rfl)

lemma filterMap_snapSource_list_vm_disks (vm : VMInfo) :
    (list_vm_disks vm).filterMap snapSubmitSourceOf = [] :=
  List.filterMap_eq_nil_iff.mpr (by
    intro e he
    rw [mem_list_vm_disks he]
    rfl)

lemma processRow_snapNames (env : Env) (t : Nat) (row : Row) (vm : VMInfo)
    (zones : List String) (snapEvs : List Event) (t2 : Nat)
    (hg : env.getVm row.source_rg row.source_vm = GetVmResult.ok vm)
    (hz : vm.zones = some zones)
    (hmem : ¬ row.desired_zone ∈ zones)
    (hco : env.checkOnly = false)
    (hsku : check_sku_availability env vm.location vm.vm_size = true)
    (hsnap : snapshotAll env row.source_rg vm.location t
      (vm.os_disk :: vm.data_disks) = (snapEvs, t2, false)) :
    snapshotCallNames (processRow env t row).1 = snapshotCallNames snapEvs ∧
    snapshotSubmitSources (processRow env t row).1 =
      snapshotSubmitSources snapEvs := by
  rcases hnic : vm.network_interface_ids with _ | ⟨nic, nicRest⟩
  · constructor <;>
      simp [processRow, check_vm_exists, hg, hz, hmem, hco, hsku, hsnap, hnic,
        snapshotCallNames, snapshotSubmitSources, snapNameOf, snapSubmitSourceOf,
        List.filterMap_append, filterMap_snapName_list_vm_disks,
        filterMap_snapSource_list_vm_disks]
  · rcases hdo : env.deleteOutcome row.source_rg row.source_vm with _ | _
    · rcases hcr : env.createOutcome row.desired_rg row.desired_vm with _ | _ | _ | _ <;>
        rcases hst : env.startOutcome row.desired_rg row.desired_vm with _ | _ <;>
        constructor <;>
        simp [processRow, check_vm_exists, hg, hz, hmem, hco, hsku, hsnap, hnic,
          delete_vm, hdo, create_vm, hcr, start_vm, hst,
          snapshotCallNames, snapshotSubmitSources, snapNameOf, snapSubmitSourceOf,
          List.filterMap_append, filterMap_snapName_list_vm_disks,
          filterMap_snapSource_list_vm_disks]
    · constructor <;>
        simp [processRow, check_vm_exists, hg, hz, hmem, hco, hsku, hsnap, hnic,
          delete_vm, hdo,
          snapshotCallNames, snapshotSubmitSources, snapNameOf, snapSubmitSourceOf,
          List.filterMap_append, filterMap_snapName_list_vm_disks,
          filterMap_snapSource_list_vm_disks]

/-- C7 (amended): for a record reaching the snapshot stage on which every
submission succeeds, exactly one snapshot request is attempted and submitted
per attached disk (OS disk first, then each data disk, in order), each with
the generated name `<diskName>-<timestamp>`; and when the attached disks
carry pairwise-distinct names and all calls observe the same clock second,
the generated names are pairwise distinct.  Distinctness fails for
same-named disks within one clock second (see the counterexample). -/
theorem C7_one_snapshot_attempt_per_disk (env : Env) (t : Nat) (row : Row) (vm : VMInfo)
    (zones : List String) (ts : String)
    (hg : env.getVm row.source_rg row.source_vm = GetVmResult.ok vm)
    (hz : vm.zones = some zones)
    (hmem : ¬ row.desired_zone ∈ zones)
    (hco : env.checkOnly = false)
    (hsku : check_sku_availability env vm.location vm.vm_size = true)
    (hok : ∀ d ∈ vm.os_disk :: vm.data_disks,
      env.snapOutcome d.managed_disk_id = SnapOutcome.ok)
    (hts : ∀ i, env.timestamp i = ts)
    (hnames : ((vm.os_disk :: vm.data_disks).map Disk.name).Nodup) :
    snapshotCallNames (processRow env t row).1 =
      expectedSnapshotNames (vm.os_disk :: vm.data_disks) ts ∧
    snapshotSubmitSources (processRow env t row).1 =
      diskIds (vm.os_disk :: vm.data_disks) ∧
    (snapshotCallNames (processRow env t row).1).Nodup := by
  obtain ⟨h1, h2, h3⟩ := snapshotAll_ok hts t (vm.os_disk :: vm.data_disks) hok
  rcases hsnap : snapshotAll env row.source_rg vm.location t
      (vm.os_disk :: vm.data_disks) with ⟨snapEvs, t2, raised⟩
  rw [hsnap] at h1 h2 h3
  simp only at h1 h2 h3
  subst h3
  obtain ⟨hn, hs⟩ := processRow_snapNames env t row vm zones snapEvs t2
    hg hz hmem hco hsku hsnap
  refine ⟨hn.trans h1, hs.trans h2, ?_⟩
  rw [hn.trans h1]
  have : expectedSnapshotNames (vm.os_disk :: vm.data_disks) ts =
      ((vm.os_disk :: vm.data_disks).map Disk.name).map
        (fun s => s ++ "-" ++ ts) := by
    simp [expectedSnapshotNames, List.map_map, Function.comp]
  rw [this]
  exact hnames.map (appendNameTs_injective ts)


/-- Witness for C3 at concrete inputs: with a `SkuNotAvailable`-style
`ResourceExistsError` at create time, the record still reaches `start_vm`,
and since the start submission itself succeeds here, the run continues. -/
theorem C3_resource_exists_error_swallowed_witness :
    Event.startCall "rg2" "vm2" ∈ (processRow envCreateSkuErr 0 rowA).1 ∧
    (processRow envCreateSkuErr 0 rowA).2.2 = StepResult.next :=
  ⟨(C3_resource_exists_error_swallowed envCreateSkuErr 0 rowA
      (by decide) (by decide)).1,
   (C3_resource_exists_error_swallowed envCreateSkuErr 0 rowA
      (by decide) (by decide)).2.1 rfl⟩

/-- Witness for C4 at concrete inputs: in a successful migration the
confirmed delete precedes the create call. -/
theorem C4_create_only_after_delete_confirmed_witness :
    ((eventsBefore Event.isCreateCall (processRow envA 0 rowA).1).any
      (isDeleteCompletedFor "rg" "vm")) = true :=
  C4_create_only_after_delete_confirmed envA 0 rowA (by decide)

/-- Witness for C1 at concrete inputs: in a successful migration every disk
has a snapshot attempt before the delete begins. -/
theorem C1_delete_only_after_snapshot_attempts_witness :
    snapshotAttemptedForAll "rg" "eastus" (vmA.os_disk :: vmA.data_disks)
      (eventsBefore isDeleteBeginEv (processRow envA 0 rowA).1) = true :=
  C1_delete_only_after_snapshot_attempts envA 0 rowA vmA rfl (by decide)

/-- Witness for C7 at concrete inputs: one snapshot per disk, names
`osd-<ts>` and `dd1-<ts>`, pairwise distinct. -/
theorem C7_one_snapshot_attempt_per_disk_witness :
    snapshotCallNames (processRow envA 0 rowA).1 =
      expectedSnapshotNames (vmA.os_disk :: vmA.data_disks) "20250101120000" ∧
    snapshotSubmitSources (processRow envA 0 rowA).1 =
      diskIds (vmA.os_disk :: vmA.data_disks) ∧
    (snapshotCallNames (processRow envA 0 rowA).1).Nodup :=
  C7_one_snapshot_attempt_per_disk envA 0 rowA vmA ["1"] "20250101120000"
    rfl rfl (by decide) rfl (by decide) (by decide) (fun _ => rfl) (by decide)

/-- C6: the OS-disk resource id and the ordered data-disk entries placed in
the attach-only create request are exactly those read from the inspected
source VM's storage profile. -/
theorem C6_create_request_reuses_disk_ids (env : Env) (t : Nat) (row : Row)
    (vm : VMInfo) (rg name : String) (req : CreateReq)
    (hg : env.getVm row.source_rg row.source_vm = GetVmResult.ok vm)
    (hc : Event.createCall rg name req ∈ (processRow env t row).1) :
    req.os_disk_id = vm.os_disk.managed_disk_id ∧
    req.os_create_option = "Attach" ∧
    req.data_disks = attachOnly vm.data_disks := by
  obtain ⟨_, _, _, _, h5, h6, _, h8, _, _, _⟩ :=
    createCall_characterization env t row vm rg name req hg hc
  exact ⟨h5, h6, h8⟩

/-- Witness for C6 at concrete inputs: the request built for `rowA` carries
exactly `vmA`'s disk ids. -/
theorem C6_create_request_reuses_disk_ids_witness :
    reqA.os_disk_id = vmA.os_disk.managed_disk_id ∧
    reqA.os_create_option = "Attach" ∧
    reqA.data_disks = attachOnly vmA.data_disks :=
  C6_create_request_reuses_disk_ids envA 0 rowA vmA "rg2" "vm2" reqA rfl (by decide)

/-- C10: migration never changes the VM's location or size class: the
capacity check queries the source VM's current location and size, and the
create request reuses exactly that location and size, targeting the desired
resource group, VM name and zone. -/
theorem C10_location_and_size_preserved (env : Env) (t : Nat) (row : Row)
    (vm : VMInfo) (loc size rg name : String) (req : CreateReq)
    (hg : env.getVm row.source_rg row.source_vm = GetVmResult.ok vm)
    (hq : Event.skuQuery loc size ∈ (processRow env t row).1)
    (hc : Event.createCall rg name req ∈ (processRow env t row).1) :
    loc = vm.location ∧ size = vm.vm_size ∧
    rg = row.desired_rg ∧ name = row.desired_vm ∧
    req.location = vm.location ∧ req.vm_size = vm.vm_size ∧
    req.zones = [row.desired_zone] := by
  obtain ⟨h1, h2, h3, h4, _, _, _, _, _, h10, hsq⟩ :=
    createCall_characterization env t row vm rg name req hg hc
  obtain ⟨hl, hs⟩ := hsq loc size hq
  exact ⟨hl, hs, h1, h2, h3, h4, h10⟩

/-- Witness for C10 at concrete inputs: the capacity check and the create
request both use `vmA`'s location and size; only zone, name and resource
group are retargeted. -/
theorem C10_location_and_size_preserved_witness :
    "eastus" = vmA.location ∧ "Standard_D2s_v3" = vmA.vm_size ∧
    "rg2" = rowA.desired_rg ∧ "vm2" = rowA.desired_vm ∧
    reqA.location = vmA.location ∧ reqA.vm_size = vmA.vm_size ∧
    reqA.zones = [rowA.desired_zone] :=
  C10_location_and_size_preserved envA 0 rowA vmA "eastus" "Standard_D2s_v3"
    "rg2" "vm2" reqA rfl (by decide) (by decide)
